import Mathlib

/-!
Verification of the route-matching and navigation core of the `router-slot`
router component (`src/lib/router-component.ts`).

The component keeps an ordered list of route descriptors.  On a navigation
event it scans the list for the first pattern matching the current path
(`matchRoute`) and then runs the transition sequence (`loadPath`): a
configuration check, sequential guard evaluation, an identity check against
the current route, an optional redirect, lazy component resolution, DOM
swap, and a series of dispatched events.

The embedding below is a shallow one.  Browser-side operations (event
dispatch, `history.replaceState`, scrolling, DOM child swap, factory
invocation) are recorded as an explicit list of `Effect`s in the order the
code performs them; the mutable fields of the component (`routes`,
`currentRoute`, the attached child node) form a `RouterState` that is
threaded through.  JavaScript reference identity of route objects is
modelled by a numeric `id` field: two route descriptors are the same
object exactly when their ids agree.  The JS regular-expression engine is
opaque to the embedding, so matching of a *string* pattern inside a path
(`path.match(stringPattern)`) is a parameter `strMatch`; the two concrete
regexes the component itself builds (`/^$/` for the empty pattern) are
modelled exactly.  Thrown exceptions are the `Except` error channel.
-/

/-- A route pattern: either a string or a regular expression
(`path: RegExp | string`).  A regex is opaque; only its test function
(whether it matches somewhere in a given path) is visible. -/
inductive Pattern where
  | str (s : String)
  | regex (test : String → Bool)

/-- A resolved ES module value: an object with an optional (truthy)
`default` export and the value itself usable as a constructor.
Constructors are identified by numbers. -/
structure JsModule where
  defaultExport : Option Nat
  selfCtor : Nat
  deriving DecidableEq, Repr

/-- The value a component entry resolves to after the factory step: a plain
module object, a promise of one, or a promise that rejects. -/
inductive ModVal where
  | direct (m : JsModule)
  | promise (m : JsModule)
  | rejected (e : String)
  deriving DecidableEq, Repr

/-- `await Promise.resolve(v)`: a plain value passes through, a promise is
awaited, a rejected promise throws. -/
def awaitResolve : ModVal → Except String JsModule
  | ModVal.direct m => Except.ok m
  | ModVal.promise m => Except.ok m
  | ModVal.rejected e => Except.error e

/-- The `component` field of a route entry:
* `cls c` — a class constructor (it is a `Function` but `isClass` holds, so
  it is not invoked; awaiting it yields itself and it has no `default`);
* `fn call` — a non-class function, the deferred factory; invoking it
  yields `call` (a value or a thrown error);
* `plain v` — any non-function value (a module object or a promise). -/
inductive CompVal where
  | cls (c : Nat)
  | fn (call : Except String ModVal)
  | plain (v : ModVal)

/-- A guard from the route's `guards` array.  A guard is called with the
router and the route, both fixed for the duration of one `loadPath` call,
so its return value in that call is a single boolean; `gid` identifies the
guard so its evaluation is visible in the effect trace. -/
structure Guard where
  gid : Nat
  result : Bool
  deriving DecidableEq, Repr

/-- A route descriptor (`IRoute`).  `id` models JavaScript reference
identity: two descriptors are the same object exactly when ids agree. -/
structure Route where
  id : Nat
  path : Pattern
  component : Option CompVal
  guards : Option (List Guard)
  scrollToTop : Option Bool
  redirectTo : Option String

/-- Observable actions of one `loadPath` run, in program order. -/
inductive Effect where
  | guardEval (gid : Nat)
  | navigationStart (rid : Nat)
  | navigationCancel (rid : Nat)
  | navigationEnd (rid : Nat)
  | navigationError (rid : Nat)
  | didChangeRoute (rid : Nat)
  | replaceState (url : String)
  | pushState (url : String)
  | scrollToTop
  | invokeFactory (rid : Nat)
  | removeChild
  | appendPage (page : Nat)
  deriving DecidableEq, Repr

/-- Errors `loadPath` can throw. -/
inductive JsError where
  | noRouteMatches (path : String)
  | configError (rid : Nat)
  | userError (e : String)
  deriving DecidableEq, Repr

/-- The mutable state of a `RouterComponent`: its route list, the
`currentRoute` field, and the page element currently attached as a child
(if any). -/
structure RouterState where
  routes : List Route
  currentRoute : Option Route
  child : Option Nat

/-- `path.match(pat)` for a pattern, given the opaque string-pattern
matcher `strMatch`. -/
def jsMatch (strMatch : String → String → Bool) (path : String) : Pattern → Bool
  | Pattern.str s => strMatch path s
  | Pattern.regex f => f path

/-- The regex `/^$/`: matches exactly the empty string. -/
def anchoredEmpty : Pattern := Pattern.regex (fun p => p == "")

/-- `route.path === "" ? /^$/ : route.path` — the pattern actually
matched against, with the empty string replaced by `/^$/` because an
empty string pattern would match every path. -/
def matchPathOf (r : Route) : Pattern :=
  match r.path with
  | Pattern.str s => if s = "" then anchoredEmpty else Pattern.str s
  | p => p

/-- `matchRoute`: scan the route list and return the first route whose
pattern matches the path. -/
def matchRoute (strMatch : String → String → Bool) : List Route → String → Option Route
  | [], _ => none
  | r :: rest, path =>
    if jsMatch strMatch path (matchPathOf r) then some r
    else matchRoute strMatch rest path

/-- Specification-side per-entry predicate: does this route's pattern match
the path, with an empty string pattern matching only the empty path? -/
def routeMatches (strMatch : String → String → Bool) (path : String) (r : Route) : Bool :=
  match r.path with
  | Pattern.str s => if s = "" then path == "" else strMatch path s
  | Pattern.regex f => f path

/-- The configuration check of `loadPath`, faithfully mirroring the source
condition
`route.component == null && route.redirectTo == null &&
 !(route.component != null && route.redirectTo != null)`
(the third conjunct is exactly as written in the source). -/
def configInvalid (r : Route) : Bool :=
  r.component.isNone && r.redirectTo.isNone &&
    !(r.component.isSome && r.redirectTo.isSome)

/-- The guard loop: evaluate guards in order, stopping at the first one
returning `false`.  Returns the first failing guard (if any) together with
the `guardEval` trace of the guards actually called. -/
def runGuards : List Guard → Option Guard × List Effect
  | [] => (none, [])
  | g :: gs =>
    if g.result then
      let rest := runGuards gs
      (rest.1, Effect.guardEval g.gid :: rest.2)
    else (some g, [Effect.guardEval g.gid])

/-- `if (route.guards != null) { for (const guard of route.guards) ... }`:
guard evaluation for a route, a no-op when `guards` is absent. -/
def evalGuards (r : Route) : Option Guard × List Effect :=
  match r.guards with
  | none => (none, [])
  | some gs => runGuards gs

/-- All guards of the route return `true` (vacuously when absent). -/
def guardsPass (r : Route) : Bool :=
  (r.guards.getD []).all (fun g => g.result)

/-- The `guardEval` trace of a full, successful guard pass. -/
def guardTraceOf (r : Route) : List Effect :=
  (r.guards.getD []).map (fun g => Effect.guardEval g.gid)

/-- `this.currentRoute !== route`: reference inequality between the stored
current route (initially absent) and the matched route. -/
def refNe (cur : Option Route) (r : Route) : Bool :=
  match cur with
  | none => true
  | some cr => cr.id != r.id

/-- `module.default ? new module.default() : new module()`: the page is
constructed from the `default` export when present (a constructor is always
truthy), otherwise from the module value itself. -/
def constructPage (m : JsModule) : Nat :=
  match m.defaultExport with
  | some d => d
  | none => m.selfCtor

/-- Component resolution inside `loadPath`:
`component instanceof Function && !isClass(component)` triggers the factory
call (recorded as an `invokeFactory` effect), then
`await Promise.resolve(component)` yields the module or throws.  An absent
component (unreachable past the configuration check unless a redirect is
set) throws a `TypeError` when its `default` property is read. -/
def resolveComponent (rid : Nat) : Option CompVal → Except String JsModule × List Effect
  | none => (Except.error "TypeError", [])
  | some (CompVal.cls c) => (Except.ok { defaultExport := none, selfCtor := c }, [])
  | some (CompVal.fn call) =>
    match call with
    | Except.error e => (Except.error e, [Effect.invokeFactory rid])
    | Except.ok v => (awaitResolve v, [Effect.invokeFactory rid])
  | some (CompVal.plain v) => (awaitResolve v, [])

/-- `if (route.scrollToTop == null || route.scrollToTop) window.scrollTo(0, 0)`. -/
def scrollEffs (r : Route) : List Effect :=
  if r.scrollToTop.getD true then [Effect.scrollToTop] else []

/-- The `try` block of `loadPath`, entered with the matched route: guard
evaluation with cancellation, the `currentRoute !== route` check, redirect,
component resolution, page swap, scrolling and the event dispatches, with
any thrown error dispatched as `navigationError` and rethrown. -/
def loadPathTry (st : RouterState) (route : Route) :
    Except JsError Bool × RouterState × List Effect :=
  match evalGuards route with
  | (some _, gtrace) => (Except.ok false, st, gtrace ++ [Effect.navigationCancel route.id])
  | (none, gtrace) =>
    if refNe st.currentRoute route then
      let pre := gtrace ++ [Effect.navigationStart route.id]
      match route.redirectTo with
      | some url => (Except.ok false, st, pre ++ [Effect.replaceState url])
      | none =>
        match resolveComponent route.id route.component with
        | (Except.error e, effs) =>
          (Except.error (JsError.userError e), st,
            pre ++ effs ++ [Effect.navigationError route.id])
        | (Except.ok m, effs) =>
          let page := constructPage m
          let removeEffs := if st.child.isSome then [Effect.removeChild] else []
          (Except.ok true,
            { st with child := some page, currentRoute := some route },
            pre ++ effs ++ removeEffs ++ [Effect.appendPage page] ++ scrollEffs route ++
              [Effect.didChangeRoute route.id, Effect.navigationEnd route.id])
    else
      (Except.ok false, st, gtrace ++ scrollEffs route ++ [Effect.didChangeRoute route.id])

/-- `loadPath`: match the path against the route list (throwing when no
route matches), run the configuration check (throwing on failure), then the
`try` block.  Returns the boolean result (`true` exactly when a navigation
to a new page was made), the updated component state, and the effect
trace. -/
def loadPath (strMatch : String → String → Bool) (st : RouterState) (path : String) :
    Except JsError Bool × RouterState × List Effect :=
  match matchRoute strMatch st.routes path with
  | none => (Except.error (JsError.noRouteMatches path), st, [])
  | some route =>
    if configInvalid route then (Except.error (JsError.configError route.id), st, [])
    else loadPathTry st route

/-- `setup(routes, parentRouter, navigate)`: clear the route list, store the
new routes, and (when `navigate` is set) load the current path.  Listener
wiring to the parent router or the history is outside the model. -/
def setup (strMatch : String → String → Bool) (st : RouterState) (routes : List Route)
    (navigate : Bool) (currentPath : String) :
    Except JsError Bool × RouterState × List Effect :=
  let st1 := { st with routes := routes }
  if navigate then loadPath strMatch st1 currentPath
  else (Except.ok false, st1, [])

/-- Claim C1: `matchRoute` returns the first entry of the route list, in
insertion order, whose pattern matches the path; an entry whose pattern is
the empty string matches only the empty path. -/
theorem matchRoute_eq_find_first (strMatch : String → String → Bool)
    (routes : List Route) (path : String) :
    matchRoute strMatch routes path = routes.find? (routeMatches strMatch path) ∧
    (∀ r : Route, r.path = Pattern.str "" →
      (routeMatches strMatch path r = true ↔ path = "")) := by
  constructor
  · induction routes with
    | nil => rfl
    | cons r rest ih =>
      show (if jsMatch strMatch path (matchPathOf r) then some r
            else matchRoute strMatch rest path) = _
      have hpm : jsMatch strMatch path (matchPathOf r) = routeMatches strMatch path r := by
        cases hp : r.path with
        | str s =>
          by_cases hs : s = "" <;>
            simp [matchPathOf, jsMatch, routeMatches, anchoredEmpty, hp, hs]
        | regex f => simp [matchPathOf, jsMatch, routeMatches, hp]
      rw [hpm, List.find?]
      cases h : routeMatches strMatch path r <;> simp [h, ih]
  · intro r hr
    simp [routeMatches, hr]

/-- Witness for C1 at a concrete input: with an empty-pattern route first in
the list, the empty path selects it, and the empty pattern matches the
empty path. -/
theorem matchRoute_eq_find_first_witness :
    matchRoute (fun _ _ => false)
        [{ id := 0, path := Pattern.str "", component := some (CompVal.cls 1),
           guards := none, scrollToTop := none, redirectTo := none }] "" =
      [{ id := 0, path := Pattern.str "", component := some (CompVal.cls 1),
         guards := none, scrollToTop := none, redirectTo := none }].find?
        (routeMatches (fun _ _ => false) "") ∧
    routeMatches (fun _ _ => false) ""
      { id := 0, path := Pattern.str "", component := some (CompVal.cls 1),
        guards := none, scrollToTop := none, redirectTo := none } = true := by
  refine ⟨(matchRoute_eq_find_first (fun _ _ => false) _ "").1, ?_⟩
  exact ((matchRoute_eq_find_first (fun _ _ => false) [] "").2 _ rfl).mpr rfl

/-- A fully passing guard list evaluates every guard and fails none. -/
theorem runGuards_all_true (gs : List Guard) (h : gs.all (fun g => g.result) = true) :
    runGuards gs = (none, gs.map (fun g => Effect.guardEval g.gid)) := by
  induction gs with
  | nil => rfl
  | cons g rest ih =>
    simp only [List.all_cons, Bool.and_eq_true] at h
    simp [runGuards, h.1, ih h.2]

/-- A guard list whose first failure is `g` evaluates exactly the guards up
to and including `g` and reports `g` as the failure. -/
theorem runGuards_first_fail (pre post : List Guard) (g : Guard)
    (hpre : ∀ p ∈ pre, p.result = true) (hg : g.result = false) :
    runGuards (pre ++ g :: post) =
      (some g, pre.map (fun p => Effect.guardEval p.gid) ++ [Effect.guardEval g.gid]) := by
  induction pre with
  | nil => simp [runGuards, hg]
  | cons p rest ih =>
    have hp : p.result = true := hpre p (List.mem_cons_self ..)
    have hrest : ∀ q ∈ rest, q.result = true := fun q hq => hpre q (List.mem_cons_of_mem _ hq)
    simp [runGuards, hp, ih hrest]

/-- Guard evaluation for a route all of whose guards pass. -/
theorem evalGuards_pass (r : Route) (h : guardsPass r = true) :
    evalGuards r = (none, guardTraceOf r) := by
  unfold evalGuards guardsPass guardTraceOf at *
  cases hg : r.guards with
  | none => simp
  | some gs => rw [hg] at h; simp at h; exact runGuards_all_true gs (by simpa using h)

/-- A guard list evaluates with no failure exactly when all guards pass. -/
theorem runGuards_none_iff (gs : List Guard) :
    (runGuards gs).1 = none ↔ gs.all (fun g => g.result) = true := by
  induction gs with
  | nil => simp [runGuards]
  | cons g rest ih =>
    cases hg : g.result <;> simp [runGuards, hg, ih]

/-- Guard evaluation for a route whose guard list has a first failure. -/
theorem evalGuards_fail (r : Route) (pre post : List Guard) (g : Guard)
    (hg : r.guards = some (pre ++ g :: post))
    (hpre : ∀ p ∈ pre, p.result = true) (hfail : g.result = false) :
    evalGuards r =
      (some g, pre.map (fun p => Effect.guardEval p.gid) ++ [Effect.guardEval g.gid]) := by
  unfold evalGuards
  rw [hg]
  show runGuards (pre ++ g :: post) = _
  exact runGuards_first_fail pre post g hpre hfail

/-- The `try` block cancels the navigation when guard evaluation reports a
failing guard. -/
theorem loadPathTry_cancel (st : RouterState) (r : Route) (g : Guard) (t : List Effect)
    (hev : evalGuards r = (some g, t)) :
    loadPathTry st r = (Except.ok false, st, t ++ [Effect.navigationCancel r.id]) := by
  unfold loadPathTry
  rw [hev]

/-- Claim C6: when no entry of the route list matches the path, `loadPath`
throws a no-route-matches error naming the path: the state is untouched
and no effect (no event, no history change, no render) is performed, so
the failure is loud rather than a silent fallback. -/
theorem loadPath_no_match_throws (strMatch : String → String → Bool)
    (st : RouterState) (path : String)
    (hm : matchRoute strMatch st.routes path = none) :
    loadPath strMatch st path = (Except.error (JsError.noRouteMatches path), st, []) := by
  unfold loadPath
  rw [hm]

/-- Witness for C6: a router with an empty route list throws on any path. -/
theorem loadPath_no_match_throws_witness :
    loadPath (fun _ _ => true) { routes := [], currentRoute := none, child := none } "home" =
      (Except.error (JsError.noRouteMatches "home"),
        { routes := [], currentRoute := none, child := none }, []) :=
  loadPath_no_match_throws (fun _ _ => true) _ "home" rfl

/-- Claim C3: guards are evaluated sequentially in list order; at the first
guard returning `false` the navigation is cancelled: a `NavigationCancel`
event is dispatched, `loadPath` returns `false`, the state is unchanged,
and the trace shows that no guard after the failing one was evaluated. -/
theorem loadPath_guard_cancel (strMatch : String → String → Bool)
    (st : RouterState) (path : String) (r : Route)
    (pre post : List Guard) (g : Guard)
    (hm : matchRoute strMatch st.routes path = some r)
    (hcfg : configInvalid r = false)
    (hg : r.guards = some (pre ++ g :: post))
    (hpre : ∀ p ∈ pre, p.result = true)
    (hfail : g.result = false) :
    loadPath strMatch st path =
      (Except.ok false, st,
        pre.map (fun p => Effect.guardEval p.gid) ++
          [Effect.guardEval g.gid, Effect.navigationCancel r.id]) := by
  unfold loadPath
  rw [hm]
  simp only [hcfg, Bool.false_eq_true, if_false]
  rw [loadPathTry_cancel st r g _ (evalGuards_fail r pre post g hg hpre hfail)]
  simp

/-- Witness for C3: two guards, the second failing; the third guard is never
evaluated and the navigation is cancelled. -/
theorem loadPath_guard_cancel_witness :
    loadPath (fun _ _ => true)
      { routes := [{ id := 3, path := Pattern.str "g", component := some (CompVal.cls 1),
                     guards := some [{ gid := 1, result := true }, { gid := 2, result := false },
                                     { gid := 7, result := true }],
                     scrollToTop := none, redirectTo := none }],
        currentRoute := none, child := none } "g" =
      (Except.ok false,
        { routes := [{ id := 3, path := Pattern.str "g", component := some (CompVal.cls 1),
                       guards := some [{ gid := 1, result := true }, { gid := 2, result := false },
                                       { gid := 7, result := true }],
                       scrollToTop := none, redirectTo := none }],
          currentRoute := none, child := none },
        [Effect.guardEval 1, Effect.guardEval 2, Effect.navigationCancel 3]) :=
  loadPath_guard_cancel (fun _ _ => true)
    { routes := [{ id := 3, path := Pattern.str "g", component := some (CompVal.cls 1),
                   guards := some [{ gid := 1, result := true }, { gid := 2, result := false },
                                   { gid := 7, result := true }],
                   scrollToTop := none, redirectTo := none }],
      currentRoute := none, child := none } "g"
    { id := 3, path := Pattern.str "g", component := some (CompVal.cls 1),
      guards := some [{ gid := 1, result := true }, { gid := 2, result := false },
                      { gid := 7, result := true }],
      scrollToTop := none, redirectTo := none }
    [{ gid := 1, result := true }] [{ gid := 7, result := true }] { gid := 2, result := false }
    rfl rfl rfl (by decide) rfl

/-- The `try` block when all guards pass and the matched route is the
current route (reference equality): no render, only scrolling and the
`DidChangeRoute` dispatch, returning `false`. -/
theorem loadPathTry_same (st : RouterState) (r : Route) (t : List Effect)
    (hev : evalGuards r = (none, t))
    (hnav : refNe st.currentRoute r = false) :
    loadPathTry st r = (Except.ok false, st, t ++ scrollEffs r ++ [Effect.didChangeRoute r.id]) := by
  unfold loadPathTry
  rw [hev]
  simp [hnav]

/-- The `try` block when all guards pass, the route is new, and a redirect
target is set: `replaceState` is called and `loadPath` returns `false`. -/
theorem loadPathTry_redirect (st : RouterState) (r : Route) (t : List Effect) (url : String)
    (hev : evalGuards r = (none, t))
    (hnav : refNe st.currentRoute r = true)
    (hred : r.redirectTo = some url) :
    loadPathTry st r =
      (Except.ok false, st,
        t ++ [Effect.navigationStart r.id, Effect.replaceState url]) := by
  unfold loadPathTry
  rw [hev]
  simp [hnav, hred]

/-- The `try` block when component resolution throws: the error is
dispatched as `NavigationError` and rethrown, the state untouched. -/
theorem loadPathTry_resolve_error (st : RouterState) (r : Route) (t : List Effect)
    (e : String) (effs : List Effect)
    (hev : evalGuards r = (none, t))
    (hnav : refNe st.currentRoute r = true)
    (hred : r.redirectTo = none)
    (hres : resolveComponent r.id r.component = (Except.error e, effs)) :
    loadPathTry st r =
      (Except.error (JsError.userError e), st,
        t ++ [Effect.navigationStart r.id] ++ effs ++ [Effect.navigationError r.id]) := by
  unfold loadPathTry
  rw [hev]
  simp [hnav, hred, hres]

/-- The `try` block on a successful render: the resolved module's page is
constructed and attached (replacing a previous child if present),
`currentRoute` is updated, and the scroll, `DidChangeRoute` and
`NavigationEnd` steps follow; `loadPath` returns `true`. -/
theorem loadPathTry_render (st : RouterState) (r : Route) (t : List Effect)
    (m : JsModule) (effs : List Effect)
    (hev : evalGuards r = (none, t))
    (hnav : refNe st.currentRoute r = true)
    (hred : r.redirectTo = none)
    (hres : resolveComponent r.id r.component = (Except.ok m, effs)) :
    loadPathTry st r =
      (Except.ok true,
        { st with child := some (constructPage m), currentRoute := some r },
        t ++ [Effect.navigationStart r.id] ++ effs ++
          (if st.child.isSome then [Effect.removeChild] else []) ++
          [Effect.appendPage (constructPage m)] ++ scrollEffs r ++
          [Effect.didChangeRoute r.id, Effect.navigationEnd r.id]) := by
  unfold loadPathTry
  rw [hev]
  simp [hnav, hred, hres]

/-- Claim C2, evaluated on the code: the configuration check of `loadPath`
throws when a matched route has neither component nor redirect target, and
registration (`setup` without navigation) never performs the check; but a
route with BOTH a component and a redirect target set is NOT rejected —
the first conjunct of the source condition is already false, so the
navigation proceeds and redirects instead of throwing the documented
configuration error. -/
theorem loadPath_config_check_eval :
    loadPath (fun _ _ => true)
        { routes := [{ id := 2, path := Pattern.str "x", component := none,
                       guards := none, scrollToTop := none, redirectTo := none }],
          currentRoute := none, child := none } "x" =
      (Except.error (JsError.configError 2),
        { routes := [{ id := 2, path := Pattern.str "x", component := none,
                       guards := none, scrollToTop := none, redirectTo := none }],
          currentRoute := none, child := none }, []) ∧
    setup (fun _ _ => true) { routes := [], currentRoute := none, child := none }
        [{ id := 2, path := Pattern.str "x", component := none,
           guards := none, scrollToTop := none, redirectTo := none }] false "x" =
      (Except.ok false,
        { routes := [{ id := 2, path := Pattern.str "x", component := none,
                       guards := none, scrollToTop := none, redirectTo := none }],
          currentRoute := none, child := none }, []) ∧
    loadPath (fun _ _ => true)
        { routes := [{ id := 1, path := Pattern.str "x", component := some (CompVal.cls 5),
                       guards := none, scrollToTop := none, redirectTo := some "/t" }],
          currentRoute := none, child := none } "x" =
      (Except.ok false,
        { routes := [{ id := 1, path := Pattern.str "x", component := some (CompVal.cls 5),
                       guards := none, scrollToTop := none, redirectTo := some "/t" }],
          currentRoute := none, child := none },
        [Effect.navigationStart 1, Effect.replaceState "/t"]) :=
  ⟨rfl, rfl, rfl⟩

/-- Cases of the `try` block other than a successful render leave the
router state (in particular `currentRoute` and the attached child)
untouched. -/
theorem loadPathTry_not_ok_true_state (st : RouterState) (r : Route)
    (h : (loadPathTry st r).1 ≠ Except.ok true) :
    (loadPathTry st r).2.1 = st := by
  rcases hev : evalGuards r with ⟨fail, t⟩
  cases fail with
  | some g => rw [loadPathTry_cancel st r g t hev]
  | none =>
    cases hnav : refNe st.currentRoute r with
    | false => rw [loadPathTry_same st r t hev hnav]
    | true =>
      cases hred : r.redirectTo with
      | some url => rw [loadPathTry_redirect st r t url hev hnav hred]
      | none =>
        rcases hres : resolveComponent r.id r.component with ⟨res, effs⟩
        cases res with
        | error e => rw [loadPathTry_resolve_error st r t e effs hev hnav hred hres]
        | ok m =>
          exact absurd (by rw [loadPathTry_render st r t m effs hev hnav hred hres]) h

/-- Claim C10: `currentRoute` (indeed the whole router state) is updated
only on a load that successfully resolves and attaches a component: when
`loadPath` does not return `true` — guard cancellation, redirect, any
thrown error, or a same-route load — the state keeps its previous value. -/
theorem loadPath_keeps_state_unless_render (strMatch : String → String → Bool)
    (st : RouterState) (path : String)
    (h : (loadPath strMatch st path).1 ≠ Except.ok true) :
    (loadPath strMatch st path).2.1 = st := by
  unfold loadPath at h ⊢
  cases hm : matchRoute strMatch st.routes path with
  | none => rfl
  | some r =>
    rw [hm] at h
    by_cases hcfg : configInvalid r = true
    · simp [hcfg]
    · simp only [Bool.not_eq_true] at hcfg
      simp only [hcfg, Bool.false_eq_true, if_false] at h ⊢
      exact loadPathTry_not_ok_true_state st r h

/-- Witness for C10: a load that hits a redirect leaves the state exactly
as it was. -/
theorem loadPath_keeps_state_unless_render_witness :
    (loadPath (fun _ _ => true)
        { routes := [{ id := 4, path := Pattern.str "r", component := none,
                       guards := none, scrollToTop := none, redirectTo := some "/home" }],
          currentRoute := none, child := none } "r").2.1 =
      { routes := [{ id := 4, path := Pattern.str "r", component := none,
                     guards := none, scrollToTop := none, redirectTo := some "/home" }],
        currentRoute := none, child := none } :=
  loadPath_keeps_state_unless_render (fun _ _ => true) _ "r"
    (by intro hc; exact absurd (Except.ok.inj hc) (by decide))

/-- Past a successful match and configuration check, `loadPath` is the
`try` block. -/
theorem loadPath_eq_try (strMatch : String → String → Bool)
    (st : RouterState) (path : String) (r : Route)
    (hm : matchRoute strMatch st.routes path = some r)
    (hcfg : configInvalid r = false) :
    loadPath strMatch st path = loadPathTry st r := by
  unfold loadPath
  rw [hm]
  simp [hcfg]

/-- Every effect of the guard loop is a guard evaluation. -/
theorem runGuards_trace_shape (gs : List Guard) :
    ∀ e ∈ (runGuards gs).2, ∃ gid, e = Effect.guardEval gid := by
  induction gs with
  | nil => simp [runGuards]
  | cons g rest ih =>
    intro e he
    cases hg : g.result <;> rw [runGuards] at he <;> simp [hg] at he
    · exact ⟨g.gid, he⟩
    · rcases he with he | he
      · exact ⟨g.gid, he⟩
      · exact ih e he

/-- Every effect of guard evaluation for a route is a guard evaluation. -/
theorem evalGuards_trace_shape (r : Route) :
    ∀ e ∈ (evalGuards r).2, ∃ gid, e = Effect.guardEval gid := by
  unfold evalGuards
  cases r.guards with
  | none => simp
  | some gs => exact runGuards_trace_shape gs

/-- Guard evaluation reports no failing guard exactly when all guards
pass. -/
theorem evalGuards_none_iff (r : Route) :
    (evalGuards r).1 = none ↔ guardsPass r = true := by
  unfold evalGuards guardsPass
  cases r.guards with
  | none => simp
  | some gs => simpa using runGuards_none_iff gs

/-- Claim C4: for a matched route with a redirect target whose guards all
pass, in any state satisfying the reachability invariant that the stored
current route has no redirect target, `loadPath` calls `replaceState` on
the history (never `pushState`), renders nothing, returns `false`, and
leaves the state unchanged. -/
theorem loadPath_redirect_replaces_history (strMatch : String → String → Bool)
    (st : RouterState) (path : String) (r : Route) (url : String)
    (hm : matchRoute strMatch st.routes path = some r)
    (hcfg : configInvalid r = false)
    (hg : guardsPass r = true)
    (hr : r.redirectTo = some url)
    (hinv : ∀ cr, st.currentRoute = some cr → cr.redirectTo = none)
    (hid : ∀ cr, st.currentRoute = some cr → cr.id = r.id → cr = r) :
    loadPath strMatch st path =
      (Except.ok false, st,
        guardTraceOf r ++ [Effect.navigationStart r.id, Effect.replaceState url]) ∧
    (∀ u, Effect.pushState u ∉ (loadPath strMatch st path).2.2) ∧
    (∀ p, Effect.appendPage p ∉ (loadPath strMatch st path).2.2) := by
  have hnav : refNe st.currentRoute r = true := by
    cases hc : st.currentRoute with
    | none => rfl
    | some cr =>
      have hne : cr.id ≠ r.id := by
        intro hEq
        have hcr : cr = r := hid cr hc hEq
        have h1 := hinv cr hc
        rw [hcr, hr] at h1
        exact Option.noConfusion h1
      simp [refNe, hne]
  have heq : loadPath strMatch st path =
      (Except.ok false, st,
        guardTraceOf r ++ [Effect.navigationStart r.id, Effect.replaceState url]) := by
    rw [loadPath_eq_try strMatch st path r hm hcfg]
    exact loadPathTry_redirect st r (guardTraceOf r) url (evalGuards_pass r hg) hnav hr
  refine ⟨heq, ?_, ?_⟩ <;> rw [heq] <;> simp [guardTraceOf]

/-- Witness for C4 at a concrete input: a guarded redirect route fires
`replaceState` and returns `false`. -/
theorem loadPath_redirect_replaces_history_witness :
    loadPath (fun _ _ => true)
        { routes := [{ id := 6, path := Pattern.str "go", component := none,
                       guards := some [{ gid := 1, result := true }],
                       scrollToTop := none, redirectTo := some "/away" }],
          currentRoute := none, child := none } "go" =
      (Except.ok false,
        { routes := [{ id := 6, path := Pattern.str "go", component := none,
                       guards := some [{ gid := 1, result := true }],
                       scrollToTop := none, redirectTo := some "/away" }],
          currentRoute := none, child := none },
        [Effect.guardEval 1, Effect.navigationStart 6, Effect.replaceState "/away"]) :=
  (loadPath_redirect_replaces_history (fun _ _ => true)
    { routes := [{ id := 6, path := Pattern.str "go", component := none,
                   guards := some [{ gid := 1, result := true }],
                   scrollToTop := none, redirectTo := some "/away" }],
      currentRoute := none, child := none } "go"
    { id := 6, path := Pattern.str "go", component := none,
      guards := some [{ gid := 1, result := true }],
      scrollToTop := none, redirectTo := some "/away" } "/away"
    rfl rfl rfl rfl (fun _ hc => Option.noConfusion hc)
    (fun _ hc => Option.noConfusion hc)).1

/-- Claim C8: when component resolution throws (for example a rejected
module promise or a throwing factory) after guards have passed, `loadPath`
dispatches a `NavigationError` event for the matched route and rethrows
the very same error to the caller. -/
theorem loadPath_error_dispatch_rethrow (strMatch : String → String → Bool)
    (st : RouterState) (path : String) (r : Route) (e : String) (effs : List Effect)
    (hm : matchRoute strMatch st.routes path = some r)
    (hcfg : configInvalid r = false)
    (hg : guardsPass r = true)
    (hnav : refNe st.currentRoute r = true)
    (hred : r.redirectTo = none)
    (hres : resolveComponent r.id r.component = (Except.error e, effs)) :
    loadPath strMatch st path =
      (Except.error (JsError.userError e), st,
        guardTraceOf r ++ [Effect.navigationStart r.id] ++ effs ++
          [Effect.navigationError r.id]) := by
  rw [loadPath_eq_try strMatch st path r hm hcfg]
  exact loadPathTry_resolve_error st r (guardTraceOf r) e effs (evalGuards_pass r hg) hnav hred hres

/-- Witness for C8: a component given as a rejected promise makes the load
dispatch `NavigationError` and rethrow the rejection reason. -/
theorem loadPath_error_dispatch_rethrow_witness :
    loadPath (fun _ _ => true)
        { routes := [{ id := 9, path := Pattern.str "err",
                       component := some (CompVal.plain (ModVal.rejected "boom")),
                       guards := none, scrollToTop := none, redirectTo := none }],
          currentRoute := none, child := none } "err" =
      (Except.error (JsError.userError "boom"),
        { routes := [{ id := 9, path := Pattern.str "err",
                       component := some (CompVal.plain (ModVal.rejected "boom")),
                       guards := none, scrollToTop := none, redirectTo := none }],
          currentRoute := none, child := none },
        [Effect.navigationStart 9, Effect.navigationError 9]) :=
  loadPath_error_dispatch_rethrow (fun _ _ => true)
    { routes := [{ id := 9, path := Pattern.str "err",
                   component := some (CompVal.plain (ModVal.rejected "boom")),
                   guards := none, scrollToTop := none, redirectTo := none }],
      currentRoute := none, child := none } "err"
    { id := 9, path := Pattern.str "err",
      component := some (CompVal.plain (ModVal.rejected "boom")),
      guards := none, scrollToTop := none, redirectTo := none } "boom" []
    rfl rfl rfl rfl rfl rfl

/-- A full successful render expressed on `loadPath`. -/
theorem loadPath_render (strMatch : String → String → Bool)
    (st : RouterState) (path : String) (r : Route) (m : JsModule) (effs : List Effect)
    (hm : matchRoute strMatch st.routes path = some r)
    (hcfg : configInvalid r = false)
    (hg : guardsPass r = true)
    (hnav : refNe st.currentRoute r = true)
    (hred : r.redirectTo = none)
    (hres : resolveComponent r.id r.component = (Except.ok m, effs)) :
    loadPath strMatch st path =
      (Except.ok true,
        { st with child := some (constructPage m), currentRoute := some r },
        guardTraceOf r ++ [Effect.navigationStart r.id] ++ effs ++
          (if st.child.isSome then [Effect.removeChild] else []) ++
          [Effect.appendPage (constructPage m)] ++ scrollEffs r ++
          [Effect.didChangeRoute r.id, Effect.navigationEnd r.id]) := by
  rw [loadPath_eq_try strMatch st path r hm hcfg]
  exact loadPathTry_render st r (guardTraceOf r) m effs (evalGuards_pass r hg) hnav hred hres

/-- Claim C5 fails on the code: a load whose matched route has all guards
returning `true` but a redirect target set dispatches NO `DidChangeRoute`
event — the redirect branch returns before the dispatch. -/
theorem didChangeRoute_redirect_counterexample :
    guardsPass { id := 5, path := Pattern.str "r", component := some (CompVal.cls 2),
                 guards := some [{ gid := 1, result := true }],
                 scrollToTop := none, redirectTo := some "/o" } = true ∧
    (loadPath (fun _ _ => true)
        { routes := [{ id := 5, path := Pattern.str "r", component := some (CompVal.cls 2),
                       guards := some [{ gid := 1, result := true }],
                       scrollToTop := none, redirectTo := some "/o" }],
          currentRoute := none, child := none } "r").2.2 =
      [Effect.guardEval 1, Effect.navigationStart 5, Effect.replaceState "/o"] ∧
    Effect.didChangeRoute 5 ∉
      (loadPath (fun _ _ => true)
        { routes := [{ id := 5, path := Pattern.str "r", component := some (CompVal.cls 2),
                       guards := some [{ gid := 1, result := true }],
                       scrollToTop := none, redirectTo := some "/o" }],
          currentRoute := none, child := none } "r").2.2 :=
  ⟨rfl, rfl, by decide⟩

/-- Claim C5 as amended: the `DidChangeRoute` event is dispatched for the
matched route after every load in which all guards returned `true` and the
load completed without redirecting and without throwing (same-route loads
included); it is never dispatched when some guard returned `false`. -/
theorem didChangeRoute_dispatch_condition (strMatch : String → String → Bool)
    (st : RouterState) (path : String) (r : Route)
    (hm : matchRoute strMatch st.routes path = some r)
    (hcfg : configInvalid r = false) :
    (guardsPass r = true → refNe st.currentRoute r = false →
      Effect.didChangeRoute r.id ∈ (loadPath strMatch st path).2.2) ∧
    (guardsPass r = true → refNe st.currentRoute r = true → r.redirectTo = none →
      ∀ m effs, resolveComponent r.id r.component = (Except.ok m, effs) →
        Effect.didChangeRoute r.id ∈ (loadPath strMatch st path).2.2) ∧
    (guardsPass r = false →
      ∀ rid, Effect.didChangeRoute rid ∉ (loadPath strMatch st path).2.2) := by
  refine ⟨?_, ?_, ?_⟩
  · intro hg hnav
    rw [loadPath_eq_try strMatch st path r hm hcfg,
      loadPathTry_same st r (guardTraceOf r) (evalGuards_pass r hg) hnav]
    simp
  · intro hg hnav hred m effs hres
    rw [loadPath_render strMatch st path r m effs hm hcfg hg hnav hred hres]
    simp
  · intro hg rid
    rcases hev : evalGuards r with ⟨fail, t⟩
    cases fail with
    | none =>
      have hp : guardsPass r = true := (evalGuards_none_iff r).mp (by rw [hev])
      rw [hp] at hg
      exact Bool.noConfusion hg
    | some g =>
      rw [loadPath_eq_try strMatch st path r hm hcfg, loadPathTry_cancel st r g t hev]
      intro hmem
      have hsh := evalGuards_trace_shape r
      rw [hev] at hsh
      simp at hmem
      rcases hsh _ hmem with ⟨gid, hgid⟩
      exact Effect.noConfusion hgid

/-- Witness for the amended C5: a same-route load with passing (absent)
guards still dispatches `DidChangeRoute`. -/
theorem didChangeRoute_dispatch_condition_witness :
    Effect.didChangeRoute 2 ∈
      (loadPath (fun _ _ => true)
        { routes := [{ id := 2, path := Pattern.str "w", component := some (CompVal.cls 4),
                       guards := none, scrollToTop := none, redirectTo := none }],
          currentRoute := some { id := 2, path := Pattern.str "w",
                                 component := some (CompVal.cls 4), guards := none,
                                 scrollToTop := none, redirectTo := none },
          child := some 3 } "w").2.2 :=
  (didChangeRoute_dispatch_condition (fun _ _ => true)
    { routes := [{ id := 2, path := Pattern.str "w", component := some (CompVal.cls 4),
                   guards := none, scrollToTop := none, redirectTo := none }],
      currentRoute := some { id := 2, path := Pattern.str "w",
                             component := some (CompVal.cls 4), guards := none,
                             scrollToTop := none, redirectTo := none },
      child := some 3 } "w"
    { id := 2, path := Pattern.str "w", component := some (CompVal.cls 4),
      guards := none, scrollToTop := none, redirectTo := none }
    rfl rfl).1 rfl rfl

/-- Claim C7: component resolution is lazy and uniform.  A component given
as a non-class function is invoked at navigation time (the `invokeFactory`
effect appears in the trace) and its result — possibly a promise — is
awaited, the page being constructed from the awaited module; a
pre-resolved component value is used directly, with no factory invocation;
and registration via `setup` without navigation performs no effect at all
(in particular no factory runs at registration time). -/
theorem loadPath_lazy_component (strMatch : String → String → Bool)
    (st : RouterState) (path : String) (r : Route)
    (hm : matchRoute strMatch st.routes path = some r)
    (hcfg : configInvalid r = false)
    (hg : guardsPass r = true)
    (hnav : refNe st.currentRoute r = true)
    (hred : r.redirectTo = none) :
    (∀ v m, r.component = some (CompVal.fn (Except.ok v)) → awaitResolve v = Except.ok m →
      Effect.invokeFactory r.id ∈ (loadPath strMatch st path).2.2 ∧
      Effect.appendPage (constructPage m) ∈ (loadPath strMatch st path).2.2 ∧
      (loadPath strMatch st path).1 = Except.ok true) ∧
    (∀ v m, r.component = some (CompVal.plain v) → awaitResolve v = Except.ok m →
      Effect.invokeFactory r.id ∉ (loadPath strMatch st path).2.2 ∧
      Effect.appendPage (constructPage m) ∈ (loadPath strMatch st path).2.2 ∧
      (loadPath strMatch st path).1 = Except.ok true) ∧
    (∀ rs p, (setup strMatch st rs false p).2.2 = ([] : List Effect)) := by
  refine ⟨?_, ?_, fun rs p => rfl⟩
  · intro v m hcomp hawait
    have hres : resolveComponent r.id r.component =
        (Except.ok m, [Effect.invokeFactory r.id]) := by
      rw [hcomp]
      simp [resolveComponent, hawait]
    rw [loadPath_render strMatch st path r m [Effect.invokeFactory r.id] hm hcfg hg hnav hred hres]
    refine ⟨by simp, by simp, rfl⟩
  · intro v m hcomp hawait
    have hres : resolveComponent r.id r.component = (Except.ok m, []) := by
      rw [hcomp]
      simp [resolveComponent, hawait]
    rw [loadPath_render strMatch st path r m [] hm hcfg hg hnav hred hres]
    refine ⟨?_, by simp, rfl⟩
    intro hmem
    simp [guardTraceOf, scrollEffs] at hmem

/-- Witness for C7: a factory returning a promise of a module with a
default export is invoked, the promise awaited, and the page built from
the default export. -/
theorem loadPath_lazy_component_witness :
    Effect.invokeFactory 1 ∈
      (loadPath (fun _ _ => true)
        { routes := [{ id := 1, path := Pattern.str "p",
                       component := some (CompVal.fn (Except.ok
                         (ModVal.promise { defaultExport := some 9, selfCtor := 3 }))),
                       guards := none, scrollToTop := none, redirectTo := none }],
          currentRoute := none, child := none } "p").2.2 ∧
    Effect.appendPage 9 ∈
      (loadPath (fun _ _ => true)
        { routes := [{ id := 1, path := Pattern.str "p",
                       component := some (CompVal.fn (Except.ok
                         (ModVal.promise { defaultExport := some 9, selfCtor := 3 }))),
                       guards := none, scrollToTop := none, redirectTo := none }],
          currentRoute := none, child := none } "p").2.2 ∧
    (loadPath (fun _ _ => true)
        { routes := [{ id := 1, path := Pattern.str "p",
                       component := some (CompVal.fn (Except.ok
                         (ModVal.promise { defaultExport := some 9, selfCtor := 3 }))),
                       guards := none, scrollToTop := none, redirectTo := none }],
          currentRoute := none, child := none } "p").1 = Except.ok true :=
  (loadPath_lazy_component (fun _ _ => true)
    { routes := [{ id := 1, path := Pattern.str "p",
                   component := some (CompVal.fn (Except.ok
                     (ModVal.promise { defaultExport := some 9, selfCtor := 3 }))),
                   guards := none, scrollToTop := none, redirectTo := none }],
      currentRoute := none, child := none } "p"
    { id := 1, path := Pattern.str "p",
      component := some (CompVal.fn (Except.ok
        (ModVal.promise { defaultExport := some 9, selfCtor := 3 }))),
      guards := none, scrollToTop := none, redirectTo := none }
    rfl rfl rfl rfl rfl).1
    (ModVal.promise { defaultExport := some 9, selfCtor := 3 })
    { defaultExport := some 9, selfCtor := 3 } rfl rfl

/-- An effect of `scrollEffs` can only be the scroll action. -/
theorem mem_scrollEffs (r : Route) (e : Effect) (h : e ∈ scrollEffs r) :
    e = Effect.scrollToTop := by
  unfold scrollEffs at h
  split at h
  · simpa using h
  · simp at h

/-- Claim C9 fails on the code: at this input the matched route differs
from the current route, all guards pass and no redirect target is set, yet
`loadPath` does not return `true` — component resolution throws, so the
call ends in an error instead. -/
theorem loadPath_returns_true_counterexample :
    matchRoute (fun _ _ => true)
        [{ id := 8, path := Pattern.str "e",
           component := some (CompVal.plain (ModVal.rejected "boom")),
           guards := some [{ gid := 1, result := true }],
           scrollToTop := none, redirectTo := none }] "e" =
      some { id := 8, path := Pattern.str "e",
             component := some (CompVal.plain (ModVal.rejected "boom")),
             guards := some [{ gid := 1, result := true }],
             scrollToTop := none, redirectTo := none } ∧
    refNe none { id := 8, path := Pattern.str "e",
                 component := some (CompVal.plain (ModVal.rejected "boom")),
                 guards := some [{ gid := 1, result := true }],
                 scrollToTop := none, redirectTo := none } = true ∧
    guardsPass { id := 8, path := Pattern.str "e",
                 component := some (CompVal.plain (ModVal.rejected "boom")),
                 guards := some [{ gid := 1, result := true }],
                 scrollToTop := none, redirectTo := none } = true ∧
    (loadPath (fun _ _ => true)
        { routes := [{ id := 8, path := Pattern.str "e",
                       component := some (CompVal.plain (ModVal.rejected "boom")),
                       guards := some [{ gid := 1, result := true }],
                       scrollToTop := none, redirectTo := none }],
          currentRoute := none, child := none } "e").1 =
      Except.error (JsError.userError "boom") ∧
    (loadPath (fun _ _ => true)
        { routes := [{ id := 8, path := Pattern.str "e",
                       component := some (CompVal.plain (ModVal.rejected "boom")),
                       guards := some [{ gid := 1, result := true }],
                       scrollToTop := none, redirectTo := none }],
          currentRoute := none, child := none } "e").1 ≠
      Except.ok true :=
  ⟨rfl, rfl, rfl, rfl, fun h => nomatch h⟩

/-- Claim C9 as amended: a load whose matched route is the current route
(by reference) renders nothing, dispatches neither `NavigationStart` nor
`NavigationEnd`, leaves the state unchanged and returns `false`; and
`loadPath` returns `true` exactly when the matched route differs from the
current route, all guards pass, no redirect target is set, AND component
resolution succeeds without throwing. -/
theorem loadPath_returns_true_iff (strMatch : String → String → Bool)
    (st : RouterState) (path : String) (r : Route)
    (hm : matchRoute strMatch st.routes path = some r)
    (hcfg : configInvalid r = false) :
    (refNe st.currentRoute r = false →
      (loadPath strMatch st path).1 = Except.ok false ∧
      (loadPath strMatch st path).2.1 = st ∧
      (∀ p, Effect.appendPage p ∉ (loadPath strMatch st path).2.2) ∧
      (∀ rid, Effect.navigationStart rid ∉ (loadPath strMatch st path).2.2) ∧
      (∀ rid, Effect.navigationEnd rid ∉ (loadPath strMatch st path).2.2)) ∧
    ((loadPath strMatch st path).1 = Except.ok true ↔
      refNe st.currentRoute r = true ∧ guardsPass r = true ∧ r.redirectTo = none ∧
      ∃ m effs, resolveComponent r.id r.component = (Except.ok m, effs)) := by
  rw [loadPath_eq_try strMatch st path r hm hcfg]
  constructor
  · intro hnav
    rcases hev : evalGuards r with ⟨fail, t⟩
    have hsh := evalGuards_trace_shape r
    rw [hev] at hsh
    cases fail with
    | some g =>
      rw [loadPathTry_cancel st r g t hev]
      refine ⟨rfl, rfl, ?_, ?_, ?_⟩ <;> intro x hmem <;> simp at hmem <;>
        rcases hsh _ hmem with ⟨gid, hgid⟩ <;> exact Effect.noConfusion hgid
    | none =>
      rw [loadPathTry_same st r t hev hnav]
      refine ⟨rfl, rfl, ?_, ?_, ?_⟩ <;> intro x hmem <;> simp at hmem <;>
        rcases hmem with hmem | hmem <;>
        first
          | (rcases hsh _ hmem with ⟨gid, hgid⟩; exact Effect.noConfusion hgid)
          | exact Effect.noConfusion (mem_scrollEffs r _ hmem)
  · constructor
    · intro hok
      rcases hev : evalGuards r with ⟨fail, t⟩
      cases fail with
      | some g =>
        rw [loadPathTry_cancel st r g t hev] at hok
        exact absurd hok (by simp)
      | none =>
        have hg : guardsPass r = true := (evalGuards_none_iff r).mp (by rw [hev])
        cases hnav : refNe st.currentRoute r with
        | false =>
          rw [loadPathTry_same st r t hev hnav] at hok
          exact absurd hok (by simp)
        | true =>
          cases hred : r.redirectTo with
          | some url =>
            rw [loadPathTry_redirect st r t url hev hnav hred] at hok
            exact absurd hok (by simp)
          | none =>
            rcases hres : resolveComponent r.id r.component with ⟨cres, effs⟩
            cases cres with
            | error e =>
              rw [loadPathTry_resolve_error st r t e effs hev hnav hred hres] at hok
              exact absurd hok (by simp)
            | ok m => exact ⟨rfl, hg, rfl, m, effs, rfl⟩
    · rintro ⟨hnav, hg, hred, m, effs, hres⟩
      rw [loadPathTry_render st r (guardTraceOf r) m effs (evalGuards_pass r hg) hnav hred hres]

/-- Witness for the amended C9: a load of the route already current renders
nothing, dispatches no start or end event, and returns `false`. -/
theorem loadPath_returns_true_iff_witness :
    (loadPath (fun _ _ => true)
        { routes := [{ id := 1, path := Pattern.str "p", component := some (CompVal.cls 2),
                       guards := none, scrollToTop := none, redirectTo := none }],
          currentRoute := some { id := 1, path := Pattern.str "p",
                                 component := some (CompVal.cls 2), guards := none,
                                 scrollToTop := none, redirectTo := none },
          child := some 2 } "p").1 = Except.ok false ∧
    Effect.appendPage 2 ∉
      (loadPath (fun _ _ => true)
        { routes := [{ id := 1, path := Pattern.str "p", component := some (CompVal.cls 2),
                       guards := none, scrollToTop := none, redirectTo := none }],
          currentRoute := some { id := 1, path := Pattern.str "p",
                                 component := some (CompVal.cls 2), guards := none,
                                 scrollToTop := none, redirectTo := none },
          child := some 2 } "p").2.2 ∧
    Effect.navigationStart 1 ∉
      (loadPath (fun _ _ => true)
        { routes := [{ id := 1, path := Pattern.str "p", component := some (CompVal.cls 2),
                       guards := none, scrollToTop := none, redirectTo := none }],
          currentRoute := some { id := 1, path := Pattern.str "p",
                                 component := some (CompVal.cls 2), guards := none,
                                 scrollToTop := none, redirectTo := none },
          child := some 2 } "p").2.2 ∧
    Effect.navigationEnd 1 ∉
      (loadPath (fun _ _ => true)
        { routes := [{ id := 1, path := Pattern.str "p", component := some (CompVal.cls 2),
                       guards := none, scrollToTop := none, redirectTo := none }],
          currentRoute := some { id := 1, path := Pattern.str "p",
                                 component := some (CompVal.cls 2), guards := none,
                                 scrollToTop := none, redirectTo := none },
          child := some 2 } "p").2.2 :=
  let h := (loadPath_returns_true_iff (fun _ _ => true)
    { routes := [{ id := 1, path := Pattern.str "p", component := some (CompVal.cls 2),
                   guards := none, scrollToTop := none, redirectTo := none }],
      currentRoute := some { id := 1, path := Pattern.str "p",
                             component := some (CompVal.cls 2), guards := none,
                             scrollToTop := none, redirectTo := none },
      child := some 2 } "p"
    { id := 1, path := Pattern.str "p", component := some (CompVal.cls 2),
      guards := none, scrollToTop := none, redirectTo := none } rfl rfl).1 rfl
  ⟨h.1, h.2.2.1 2, h.2.2.2.1 1, h.2.2.2.2 1⟩
